import Mathlib

/-!
Shallow embedding of `src/results.js` (demo-med): a patient risk-assessment
pipeline.  JavaScript numbers are modelled by rationals (`ℚ`) together with a
`nan` marker for the non-finite results of coercion; fallible steps return
`Option`.  Stateful loops (`fetchAllPatients`, `fetchWithRetry`) are modelled
by explicit recursion on fuel respectively on the scripted response sequence,
with the observable side effects (requests, waits) recorded in a trace.
-/

/-- A primitive JavaScript value as it can appear in a field of a patient
record.  `num q` is a finite JS number (the claims under study never depend on
binary-float rounding, so a rational is used); `nan` stands for a non-finite
number (NaN or ±Infinity); `undef` is `undefined`, the value of an absent
field. -/
inductive JsVal where
  | num (q : ℚ)
  | nan
  | str (s : String)
  | null
  | undef
  | bool (b : Bool)
deriving DecidableEq

/-- JavaScript whitespace stripped by `Number(string)`: the ASCII whitespace
characters together with NBSP, the Ogham space mark, the U+2000-U+200A space
separators, the line and paragraph separators, the narrow and medium
mathematical spaces, the ideographic space and the BOM. -/
def isJsWhitespace (c : Char) : Bool :=
  c == ' ' || c == '\t' || c == '\n' || c == '\r' || c == '\x0b' || c == '\x0c' ||
  c.toNat == 0xa0 || c.toNat == 0x1680 ||
  (0x2000 ≤ c.toNat && c.toNat ≤ 0x200a) ||
  c.toNat == 0x2028 || c.toNat == 0x2029 || c.toNat == 0x202f ||
  c.toNat == 0x205f || c.toNat == 0x3000 || c.toNat == 0xfeff

/-- Strip leading and trailing JS whitespace from a character list. -/
def trimJs (l : List Char) : List Char :=
  ((l.dropWhile isJsWhitespace).reverse.dropWhile isJsWhitespace).reverse

/-- Numeric value of a decimal digit list, most significant first. -/
def digitsToNat (l : List Char) : Nat :=
  l.foldl (fun n c => n * 10 + (c.toNat - 48)) 0

/-- Numeric value of a digit list in a given base (hex digits allowed). -/
def digitsToNatBase (base : Nat) (l : List Char) : Nat :=
  l.foldl (fun n c =>
    n * base +
      (if c.isDigit then c.toNat - 48
       else if 'a' ≤ c && c ≤ 'f' then c.toNat - 87
       else c.toNat - 55)) 0

/-- Is `c` a hexadecimal digit? -/
def isHexDigitChar (c : Char) : Bool :=
  c.isDigit || ('a' ≤ c && c ≤ 'f') || ('A' ≤ c && c ≤ 'F')

/-- Is `c` an octal digit? -/
def isOctDigitChar (c : Char) : Bool :=
  '0' ≤ c && c ≤ '7'

/-- Is `c` a binary digit? -/
def isBinDigitChar (c : Char) : Bool :=
  c == '0' || c == '1'

/-- Parse an optional exponent suffix (`e`/`E`, optional sign, digits); `[]`
means exponent 0; anything else unparseable yields `none` (NaN). -/
def parseExp : List Char → Option ℤ
  | [] => some 0
  | c :: rest =>
    if c == 'e' || c == 'E' then
      match rest with
      | '+' :: ds =>
        if !ds.isEmpty && ds.all Char.isDigit then some (digitsToNat ds) else none
      | '-' :: ds =>
        if !ds.isEmpty && ds.all Char.isDigit then some (-(digitsToNat ds : ℤ)) else none
      | ds =>
        if !ds.isEmpty && ds.all Char.isDigit then some (digitsToNat ds) else none
    else none

/-- Parse an unsigned decimal literal `digits [. digits] [exp]` (at least one
digit somewhere), consuming the whole list; `none` models NaN. -/
def parseDecimal (l : List Char) : Option ℚ :=
  let intD := l.takeWhile Char.isDigit
  match l.dropWhile Char.isDigit with
  | '.' :: rest2 =>
    let fracD := rest2.takeWhile Char.isDigit
    if !intD.isEmpty || !fracD.isEmpty then
      match parseExp (rest2.dropWhile Char.isDigit) with
        | some e =>
          some (((digitsToNat intD : ℚ) + (digitsToNat fracD : ℚ) / 10 ^ fracD.length) * 10 ^ e)
        | none => none
    else none
  | rest =>
    if intD.isEmpty then none
    else match parseExp rest with
      | some e => some ((digitsToNat intD : ℚ) * 10 ^ e)
      | none => none

/-- Parse a radix-prefixed digit string (after `0x`/`0o`/`0b`). -/
def parseRadix (base : Nat) (good : Char → Bool) (ds : List Char) : Option ℚ :=
  if !ds.isEmpty && ds.all good then some (digitsToNatBase base ds : ℚ) else none

/-- The overflow threshold of an IEEE-754 double: under round-to-nearest,
ties-to-even, an exact value of magnitude at least 2^1024 - 2^970 rounds to
±Infinity, on which the source's `Number.isFinite` test is false. -/
def doubleOverflow : ℚ := 2 ^ 1024 - 2 ^ 970

/-- Reject an exactly-parsed value whose conversion to a double overflows to
±Infinity (`Number.isFinite` fails there, so the source treats the field as
invalid). -/
def checkFinite (q : ℚ) : Option ℚ :=
  if doubleOverflow ≤ q ∨ doubleOverflow ≤ -q then none else some q

/-- JS `Number(string)` restricted to finite outcomes: `some q` when the
string coerces to the finite number `q`, `none` when it coerces to NaN or
±Infinity — either syntactically unparseable (NaN), an explicit `Infinity`
literal, or a parsed magnitude that overflows a double to ±Infinity.  The
empty (or all-whitespace) string coerces to 0. -/
def strToNumber (s : String) : Option ℚ :=
  match trimJs s.toList with
  | [] => some 0
  | '0' :: 'x' :: ds => (parseRadix 16 isHexDigitChar ds).bind checkFinite
  | '0' :: 'X' :: ds => (parseRadix 16 isHexDigitChar ds).bind checkFinite
  | '0' :: 'o' :: ds => (parseRadix 8 isOctDigitChar ds).bind checkFinite
  | '0' :: 'O' :: ds => (parseRadix 8 isOctDigitChar ds).bind checkFinite
  | '0' :: 'b' :: ds => (parseRadix 2 isBinDigitChar ds).bind checkFinite
  | '0' :: 'B' :: ds => (parseRadix 2 isBinDigitChar ds).bind checkFinite
  | '+' :: rest => (parseDecimal rest).bind checkFinite
  | '-' :: rest => ((parseDecimal rest).map (fun q => -q)).bind checkFinite
  | l => (parseDecimal l).bind checkFinite

/-- JS `Number(v)` composed with the `Number.isFinite` test of the source:
`some q` exactly when the coercion yields the finite number `q`.  `null` and
the empty string coerce to 0; `undefined` coerces to NaN. -/
def toNumber : JsVal → Option ℚ
  | .num q => some q
  | .nan => none
  | .str s => strToNumber s
  | .null => some 0
  | .undef => none
  | .bool b => some (if b then 1 else 0)

/-- A patient record as received from the API (`assessPatients` in the
source reads exactly these four fields). -/
structure Patient where
  patient_id : String
  age : JsVal
  temperature : JsVal
  blood_pressure : JsVal
deriving DecidableEq

/-- The match of the anchored regex `^(\d{2,3})\/(\d{2,3})$` of the source,
already coerced with `Number` (a 2-3 digit group always coerces to its value):
`some (sys, dia)` iff the whole string is two runs of 2 to 3 decimal digits
separated by a single `/`. -/
def bpParse (s : String) : Option (Nat × Nat) :=
  let l := s.toList
  let a := l.takeWhile Char.isDigit
  match l.dropWhile Char.isDigit with
  | '/' :: b =>
    if b.all Char.isDigit ∧ 2 ≤ a.length ∧ a.length ≤ 3 ∧ 2 ≤ b.length ∧ b.length ≤ 3
    then some (digitsToNat a, digitsToNat b) else none
  | _ => none

/-- The regex match guarded by the `typeof bp === "string"` test: non-string
blood-pressure fields never match. -/
def bpOf (p : Patient) : Option (Nat × Nat) :=
  match p.blood_pressure with
  | .str s => bpParse s
  | _ => none

/-- The age-risk branch of `assessPatients`: 2 above 66, 1 above 40, else 0;
0 when the coercion is not finite. -/
def ageRiskOf (v : JsVal) : Nat :=
  match toNumber v with
  | some a => if 66 ≤ a then 2 else if 40 ≤ a then 1 else 0
  | none => 0

/-- The temperature-risk branch of `assessPatients`: 2 at or above 101,
1 at or above 99.6, else 0; 0 when the coercion is not finite. -/
def tempRiskOf (v : JsVal) : Nat :=
  match toNumber v with
  | some t => if 101 ≤ t then 2 else if (99.6 : ℚ) ≤ t then 1 else 0
  | none => 0

/-- The blood-pressure risk bands of `assessPatients`, in source order:
3 when sys ≥ 140 or dia ≥ 90; else 2 when sys ≥ 130 or dia ≥ 80; else 1 when
sys ≥ 120 and dia < 80; else 0 (the source's fourth branch assigns 0, and the
initialiser is 0 as well). -/
def bpBandRisk (sys dia : Nat) : Nat :=
  if 140 ≤ sys ∨ 90 ≤ dia then 3
  else if 130 ≤ sys ∨ 80 ≤ dia then 2
  else if 120 ≤ sys ∧ dia < 80 then 1
  else if sys < 120 ∧ dia < 80 then 0
  else 0

/-- Blood-pressure risk of a record: band risk when the field matches,
0 otherwise. -/
def bpRiskOf (p : Patient) : Nat :=
  match bpOf p with
  | some (sys, dia) => bpBandRisk sys dia
  | none => 0

/-- The per-record derived values of one loop iteration of
`assessPatients`. -/
structure RiskFactors where
  ageValid : Bool
  ageRisk : Nat
  tempValid : Bool
  tempRisk : Nat
  bpValid : Bool
  bpRisk : Nat
deriving DecidableEq

/-- One loop body of `assessPatients` up to the alert buckets. -/
def assessOne (p : Patient) : RiskFactors where
  ageValid := (toNumber p.age).isSome
  ageRisk := ageRiskOf p.age
  tempValid := (toNumber p.temperature).isSome
  tempRisk := tempRiskOf p.temperature
  bpValid := (bpOf p).isSome
  bpRisk := bpRiskOf p

/-- `totalRisk` of one record. -/
def totalRisk (p : Patient) : Nat :=
  ageRiskOf p.age + tempRiskOf p.temperature + bpRiskOf p

/-- The high-risk bucket condition `totalRisk >= 4`. -/
def highRiskFlag (p : Patient) : Bool :=
  decide (4 ≤ totalRisk p)

/-- The fever bucket condition `tempValid && temp >= 99.6`. -/
def feverFlag (p : Patient) : Bool :=
  match toNumber p.temperature with
  | some t => decide ((99.6 : ℚ) ≤ t)
  | none => false

/-- The data-quality bucket condition `!bpValid || !ageValid || !tempValid`. -/
def dqFlag (p : Patient) : Bool :=
  !(bpOf p).isSome || !(toNumber p.age).isSome || !(toNumber p.temperature).isSome

/-- The three alert lists returned by `assessPatients`. -/
structure AlertSets where
  highRiskPatients : List String
  feverPatients : List String
  dataQualityIssues : List String
deriving DecidableEq

/-- One iteration of the `assessPatients` loop: push the id onto each bucket
whose condition holds. -/
def assessStep (acc : AlertSets) (p : Patient) : AlertSets where
  highRiskPatients :=
    acc.highRiskPatients ++ (if highRiskFlag p then [p.patient_id] else [])
  feverPatients :=
    acc.feverPatients ++ (if feverFlag p then [p.patient_id] else [])
  dataQualityIssues :=
    acc.dataQualityIssues ++ (if dqFlag p then [p.patient_id] else [])

/-- `assessPatients`: fold the loop body over the input records, starting
from three empty buckets. -/
def assessPatients (patients : List Patient) : AlertSets :=
  patients.foldl assessStep ⟨[], [], []⟩

/-- The `while (page <= 3)` loop of `fetchAllPatients`, with the environment
abstracted as a deterministic page fetch `fp` and the loop unrolled on
explicit fuel: `none` means the fuel ran out before the loop exited.  An empty
page repeats the same page number (the `continue` branch); a non-empty page is
appended and the page number advances. -/
def fetchAllLoop (fp : Nat → List α) : Nat → Nat → List α → Option (List α)
  | 0, _, _ => none
  | fuel + 1, page, acc =>
    if page ≤ 3 then
      let patients := fp page
      if patients.isEmpty then fetchAllLoop fp fuel page acc
      else fetchAllLoop fp fuel (page + 1) (acc ++ patients)
    else some acc

/-- `fetchAllPatients`: run the loop from page 1 with an empty accumulator. -/
def fetchAllPatients (fp : Nat → List α) (fuel : Nat) : Option (List α) :=
  fetchAllLoop fp fuel 1 []

/-- A JSON value, the result of `res.json()`. -/
inductive Json where
  | null
  | bool (b : Bool)
  | num (q : ℚ)
  | str (s : String)
  | arr (elems : List Json)
  | obj (fields : List (String × Json))

/-- Property access `j.name` on a parsed JSON value: defined field lookup on
an object, `none` (JS `undefined`) everywhere else. -/
def Json.getField : Json → String → Option Json
  | .obj fields, name => fields.lookup name
  | _, _ => none

/-- The options object passed to `fetch` (method defaults to GET, the source
passes only headers). -/
structure ReqOptions where
  method : String
  headers : List (String × String)
  body : Option String
deriving DecidableEq

/-- One scripted HTTP response: a status code and the result of parsing its
body (`none` models a body `res.json()` fails on). -/
structure Resp where
  status : Nat
  body : Option Json

/-- An observable side effect of `fetchWithRetry`: issuing a request, or
waiting a number of milliseconds. -/
inductive Event where
  | request (url : String) (options : ReqOptions)
  | wait (ms : Nat)

/-- How a run of `fetchWithRetry` ends. -/
inductive FetchOutcome where
  | success (body : Json)
  | httpError (status : Nat)
  | parseError
  | exhausted

/-- `res.ok` of the fetch API: status in the 2xx range. -/
def resOk (status : Nat) : Bool :=
  200 ≤ status && status ≤ 299

/-- `fetchWithRetry`, with the HTTP client modelled as consuming a scripted
response sequence and every request and wait recorded in a trace.  429 waits
15000 ms and retries; 500 and 503 wait 1000 ms and retry; any other non-2xx
status throws (an `httpError` outcome) immediately; a 2xx response returns its
parsed body, or a `parseError` outcome when `res.json()` fails.  `exhausted`
is the model artifact of the script running out. -/
def fetchWithRetry (url : String) (options : ReqOptions) :
    List Resp → List Event → List Event × FetchOutcome
  | [], trace => (trace, .exhausted)
  | r :: rest, trace =>
    let trace := trace ++ [.request url options]
    if r.status = 429 then
      fetchWithRetry url options rest (trace ++ [.wait 15000])
    else if r.status = 500 ∨ r.status = 503 then
      fetchWithRetry url options rest (trace ++ [.wait 1000])
    else if resOk r.status then
      match r.body with
      | some j => (trace, .success j)
      | none => (trace, .parseError)
    else (trace, .httpError r.status)

/-- The URL built by `fetchPatientsPage`. -/
def pageUrl (page : Nat) : String :=
  "https://assessment.ksensetech.com/api/patients?page=" ++ toString page ++ "&limit=20"

/-- The options object of `fetchPatientsPage`: a GET carrying the API key
header and no body. -/
def pageOpts : ReqOptions where
  method := "GET"
  headers := [("x-api-key", "ak_034df9cf16216ec83e065f8060ff92d03d7b0c98442baf24")]
  body := none

/-- `response.data ?? []` followed by `Array.isArray(raw) ? raw : []`: the
element list when `data` is an array, `[]` when `data` is absent, `null`, or
any non-array value. -/
def unwrapData (body : Json) : List Json :=
  let raw := match body.getField "data" with
    | some Json.null => Json.arr []
    | none => Json.arr []
    | some v => v
  match raw with
  | Json.arr elems => elems
  | _ => []

/-- `fetchPatientsPage`: run `fetchWithRetry` against the scripted responses;
on success defensively unwrap the `data` field, on any thrown error (the
`catch` block) return the empty list. -/
def fetchPatientsPage (script : List Resp) (page : Nat) : List Json :=
  match fetchWithRetry (pageUrl page) pageOpts script [] with
  | (_, .success body) => unwrapData body
  | (_, _) => []

/-! ### Helper lemmas -/

/-- Unfolding one cons of the `assessPatients` fold into explicit filters. -/
theorem foldl_assessStep_eq (ps : List Patient) (acc : AlertSets) :
    ps.foldl assessStep acc =
      ⟨acc.highRiskPatients ++ (ps.filter highRiskFlag).map Patient.patient_id,
       acc.feverPatients ++ (ps.filter feverFlag).map Patient.patient_id,
       acc.dataQualityIssues ++ (ps.filter dqFlag).map Patient.patient_id⟩ := by
  induction ps generalizing acc with
  | nil => simp
  | cons p ps ih =>
    rw [List.foldl_cons, ih]
    by_cases h1 : highRiskFlag p <;> by_cases h2 : feverFlag p <;> by_cases h3 : dqFlag p <;>
      simp [assessStep, h1, h2, h3, List.filter_cons]

/-- Each alert bucket is the input filtered by its condition, projected to
identifiers, in input order. -/
theorem assessPatients_eq (ps : List Patient) :
    assessPatients ps =
      ⟨(ps.filter highRiskFlag).map Patient.patient_id,
       (ps.filter feverFlag).map Patient.patient_id,
       (ps.filter dqFlag).map Patient.patient_id⟩ := by
  simpa using foldl_assessStep_eq ps ⟨[], [], []⟩

/-- A list consisting of a satisfying prefix, one non-satisfying element and a
tail splits as such under `takeWhile` / `dropWhile`. -/
theorem takeWhile_of_append (p : Char → Bool) (a : List Char) (x : Char) (b : List Char)
    (ha : ∀ c ∈ a, p c = true) (hx : p x = false) :
    (a ++ x :: b).takeWhile p = a ∧ (a ++ x :: b).dropWhile p = x :: b := by
  induction a with
  | nil => simp [List.takeWhile_cons, List.dropWhile_cons, hx]
  | cons c a ih =>
    have hc : p c = true := ha c (by simp)
    have h := ih fun d hd => ha d (by simp [hd])
    simp [List.takeWhile_cons, List.dropWhile_cons, hc, h.1, h.2]

/-- The spec's description of a well-formed blood-pressure string: exactly two
runs of 2-to-3 decimal digits separated by a single slash, nothing else. -/
def bpWellFormed (s : String) : Prop :=
  ∃ a b : List Char,
    s.toList = a ++ '/' :: b ∧
    (∀ c ∈ a, c.isDigit = true) ∧ (∀ c ∈ b, c.isDigit = true) ∧
    2 ≤ a.length ∧ a.length ≤ 3 ∧ 2 ≤ b.length ∧ b.length ≤ 3

/-- The regex matcher succeeds exactly on well-formed blood-pressure
strings. -/
theorem bpParse_isSome_iff (s : String) : (bpParse s).isSome ↔ bpWellFormed s := by
  constructor
  · intro h
    simp only [bpParse] at h
    split at h
    next b heq =>
      split at h
      next hcond =>
        refine ⟨s.toList.takeWhile Char.isDigit, b, ?_, ?_, ?_, hcond.2.1, hcond.2.2.1,
          hcond.2.2.2.1, hcond.2.2.2.2⟩
        · conv_lhs => rw [← List.takeWhile_append_dropWhile (p := Char.isDigit) (l := s.toList)]
          rw [heq]
        · exact fun c hc => List.mem_takeWhile_imp hc
        · exact fun c hc => List.all_eq_true.mp hcond.1 c hc
      next => simp at h
    next => simp at h
  · rintro ⟨a, b, hsl, ha, hb, h2a, h3a, h2b, h3b⟩
    have hd := takeWhile_of_append Char.isDigit a '/' b ha (by decide)
    simp only [bpParse]
    rw [hsl, hd.2]
    have hcond : b.all Char.isDigit ∧ 2 ≤ ((a ++ '/' :: b).takeWhile Char.isDigit).length ∧
        ((a ++ '/' :: b).takeWhile Char.isDigit).length ≤ 3 ∧ 2 ≤ b.length ∧ b.length ≤ 3 := by
      rw [hd.1]
      exact ⟨List.all_eq_true.mpr hb, h2a, h3a, h2b, h3b⟩
    simp only [if_pos hcond, Option.isSome_some]

/-! ### Claim theorems -/

/-- C4: the age field coerced to a number is valid iff the coercion yields a
finite number (`toNumber` returns `some` exactly then); when valid, ageRisk is
2 if age ≥ 66, 1 if 40 ≤ age < 66, 0 if age < 40; when invalid, ageRisk is 0
and ageValid is false. -/
theorem C4_ageRisk (p : Patient) (a : ℚ) :
    ((assessOne p).ageValid = (toNumber p.age).isSome) ∧
    (toNumber p.age = some a →
      (66 ≤ a → (assessOne p).ageRisk = 2) ∧
      (40 ≤ a → a < 66 → (assessOne p).ageRisk = 1) ∧
      (a < 40 → (assessOne p).ageRisk = 0)) ∧
    (toNumber p.age = none → (assessOne p).ageRisk = 0 ∧ (assessOne p).ageValid = false) := by
  refine ⟨rfl, fun h => ?_, fun h => ?_⟩
  · simp only [assessOne, ageRiskOf, h]
    refine ⟨fun h66 => ?_, fun h40 h66 => ?_, fun h40 => ?_⟩ <;>
      split_ifs <;> first | rfl | linarith
  · simp [assessOne, ageRiskOf, h]

/-- Witness for C4 at age 70 (valid, risk 2) . -/
theorem C4_ageRisk_witness :
    (assessOne ⟨"W4", .num 70, .null, .null⟩).ageRisk = 2 :=
  ((C4_ageRisk ⟨"W4", .num 70, .null, .null⟩ 70).2.1 rfl).1 (by norm_num)

/-- C5: the temperature field coerced to a number is valid iff the coercion
yields a finite number; when valid, tempRisk is 2 if temp ≥ 101, 1 if
99.6 ≤ temp < 101, 0 if temp < 99.6; when invalid, tempRisk is 0 and
tempValid is false. -/
theorem C5_tempRisk (p : Patient) (t : ℚ) :
    ((assessOne p).tempValid = (toNumber p.temperature).isSome) ∧
    (toNumber p.temperature = some t →
      (101 ≤ t → (assessOne p).tempRisk = 2) ∧
      ((99.6 : ℚ) ≤ t → t < 101 → (assessOne p).tempRisk = 1) ∧
      (t < (99.6 : ℚ) → (assessOne p).tempRisk = 0)) ∧
    (toNumber p.temperature = none →
      (assessOne p).tempRisk = 0 ∧ (assessOne p).tempValid = false) := by
  refine ⟨rfl, fun h => ?_, fun h => ?_⟩
  · simp only [assessOne, tempRiskOf, h]
    refine ⟨fun h101 => ?_, fun h996 h101 => ?_, fun h996 => ?_⟩ <;>
      split_ifs <;> first | rfl | linarith
  · simp [assessOne, tempRiskOf, h]

/-- Witness for C5 at temperature 100 (valid, risk 1). -/
theorem C5_tempRisk_witness :
    (assessOne ⟨"W5", .null, .num 100, .null⟩).tempRisk = 1 :=
  ((C5_tempRisk ⟨"W5", .null, .num 100, .null⟩ 100).2.1 rfl).2.1 (by norm_num) (by norm_num)

/-- C2: blood pressure is valid iff the field is a string of exactly two
2-to-3-digit integers separated by a slash; when it parses as sys/dia, the
risk bands are characterised by first-match-wins in source order (in
particular systolic in [120,130) with diastolic in [80,90) falls into band 2);
when invalid, bpRisk is 0 and bpValid is false. -/
theorem C2_bpRisk (p : Patient) (sys dia : Nat) :
    ((assessOne p).bpValid = true ↔
      ∃ t, p.blood_pressure = JsVal.str t ∧ bpWellFormed t) ∧
    (bpOf p = some (sys, dia) →
      ((assessOne p).bpRisk = 3 ↔ (140 ≤ sys ∨ 90 ≤ dia)) ∧
      ((assessOne p).bpRisk = 2 ↔ (¬(140 ≤ sys ∨ 90 ≤ dia) ∧ (130 ≤ sys ∨ 80 ≤ dia))) ∧
      ((assessOne p).bpRisk = 1 ↔ (120 ≤ sys ∧ sys < 130 ∧ dia < 80)) ∧
      ((assessOne p).bpRisk = 0 ↔ (sys < 120 ∧ dia < 80))) ∧
    (120 ≤ sys → sys < 130 → 80 ≤ dia → dia < 90 → bpBandRisk sys dia = 2) ∧
    (bpOf p = none → (assessOne p).bpRisk = 0 ∧ (assessOne p).bpValid = false) := by
  refine ⟨?_, fun h => ?_, fun h1 h2 h3 h4 => ?_, fun h => ?_⟩
  · constructor
    · intro hv
      rw [show (assessOne p).bpValid = (bpOf p).isSome from rfl] at hv
      cases hbp : p.blood_pressure <;> unfold bpOf at hv <;> rw [hbp] at hv <;> simp at hv
      next s => exact ⟨s, rfl, (bpParse_isSome_iff s).mp (by simpa using hv)⟩
    · rintro ⟨t, ht, hwf⟩
      show (bpOf p).isSome = true
      unfold bpOf
      rw [ht]
      exact (bpParse_isSome_iff t).mpr hwf
  · have hr : (assessOne p).bpRisk = bpBandRisk sys dia := by
      simp [assessOne, bpRiskOf, h]
    rw [hr]
    unfold bpBandRisk
    split_ifs <;> refine ⟨?_, ?_, ?_, ?_⟩ <;> constructor <;> intro hh <;>
      first | omega | exact hh.elim | exact absurd hh (by omega)
  · unfold bpBandRisk
    split_ifs <;> omega
  · exact ⟨by simp [assessOne, bpRiskOf, h], by simp [assessOne, h]⟩

/-- Witness for C2 at blood pressure "125/85" (band 2 via the diastolic
reading). -/
theorem C2_bpRisk_witness :
    (assessOne ⟨"W2", .null, .null, .str "125/85"⟩).bpRisk = 2 :=
  (((C2_bpRisk ⟨"W2", .null, .null, .str "125/85"⟩ 125 85).2.1 (by decide)).2.1).mpr
    (by omega)

/-- C1: each record's id is added to the high-risk bucket iff its summed risk
(0 for each invalid component) is at least 4, to the fever bucket iff the
temperature is valid and at least 99.6, and to the data-quality bucket iff at
least one of the three components is invalid; a record with all three fields
invalid has total risk 0, is flagged data-quality, and triggers neither the
fever nor the high-risk condition. -/
theorem C1_classification (ps : List Patient) (p : Patient) :
    ((assessPatients ps).highRiskPatients =
      (ps.filter fun q =>
        decide (4 ≤ (assessOne q).ageRisk + (assessOne q).tempRisk + (assessOne q).bpRisk)).map
        Patient.patient_id) ∧
    ((assessPatients ps).feverPatients = (ps.filter feverFlag).map Patient.patient_id) ∧
    ((assessPatients ps).dataQualityIssues =
      (ps.filter fun q =>
        !(assessOne q).bpValid || !(assessOne q).ageValid || !(assessOne q).tempValid).map
        Patient.patient_id) ∧
    (toNumber p.age = none → toNumber p.temperature = none → bpOf p = none →
      totalRisk p = 0 ∧ dqFlag p = true ∧ feverFlag p = false ∧ highRiskFlag p = false) := by
  refine ⟨?_, ?_, ?_, fun h1 h2 h3 => ?_⟩
  · rw [assessPatients_eq]
    rfl
  · rw [assessPatients_eq]
  · rw [assessPatients_eq]
    rfl
  · have ht : totalRisk p = 0 := by
      simp [totalRisk, ageRiskOf, tempRiskOf, bpRiskOf, h1, h2, h3]
    exact ⟨ht, by simp [dqFlag, h1, h2, h3], by simp [feverFlag, h2],
      by simp [highRiskFlag, ht]⟩

/-- Witness for C1 at an all-invalid record. -/
theorem C1_classification_witness :
    totalRisk ⟨"WZ", .undef, .undef, .undef⟩ = 0 ∧
    dqFlag ⟨"WZ", .undef, .undef, .undef⟩ = true ∧
    feverFlag ⟨"WZ", .undef, .undef, .undef⟩ = false ∧
    highRiskFlag ⟨"WZ", .undef, .undef, .undef⟩ = false :=
  (C1_classification [] ⟨"WZ", .undef, .undef, .undef⟩).2.2.2 rfl rfl rfl

/-- C3 counterexample: two input records share the identifier "D1" and both
flag data-quality, so the output list holds that identifier twice. -/
theorem C3_counterexample :
    ¬ (assessPatients [⟨"D1", .undef, .undef, .undef⟩,
        ⟨"D1", .undef, .undef, .undef⟩]).dataQualityIssues.Nodup := by
  decide

/-- C3 (amended): when the input records carry pairwise-distinct identifiers,
each alert list is duplicate-free; and in all cases identifiers appear in
input order — each alert list is a sublist of the input identifier
sequence. -/
theorem C3_nodup (ps : List Patient) :
    ((ps.map Patient.patient_id).Nodup →
      (assessPatients ps).highRiskPatients.Nodup ∧
      (assessPatients ps).feverPatients.Nodup ∧
      (assessPatients ps).dataQualityIssues.Nodup) ∧
    (assessPatients ps).highRiskPatients.Sublist (ps.map Patient.patient_id) ∧
    (assessPatients ps).feverPatients.Sublist (ps.map Patient.patient_id) ∧
    (assessPatients ps).dataQualityIssues.Sublist (ps.map Patient.patient_id) := by
  have hs : ∀ f : Patient → Bool,
      ((ps.filter f).map Patient.patient_id).Sublist (ps.map Patient.patient_id) :=
    fun f => (List.filter_sublist ps).map Patient.patient_id
  rw [assessPatients_eq]
  exact ⟨fun h => ⟨List.Nodup.sublist (hs _) h, List.Nodup.sublist (hs _) h,
    List.Nodup.sublist (hs _) h⟩, hs _, hs _, hs _⟩

/-- Witness for the amended C3: with distinct ids the data-quality list is
duplicate-free, and it is a sublist of the input identifier sequence. -/
theorem C3_nodup_witness :
    (assessPatients [⟨"A", .undef, .undef, .undef⟩,
      ⟨"B", .undef, .undef, .undef⟩]).dataQualityIssues.Nodup ∧
    (assessPatients [⟨"A", .undef, .undef, .undef⟩,
      ⟨"B", .undef, .undef, .undef⟩]).dataQualityIssues.Sublist ["A", "B"] :=
  ⟨((C3_nodup [⟨"A", .undef, .undef, .undef⟩, ⟨"B", .undef, .undef, .undef⟩]).1
      (by decide)).2.2,
   (C3_nodup [⟨"A", .undef, .undef, .undef⟩, ⟨"B", .undef, .undef, .undef⟩]).2.2.2⟩

/-- C9: null or empty-string age coerces to 0, hence counts as valid with
risk 0 and cannot by itself cause a data-quality flag; likewise a null or
empty-string temperature is a valid reading of 0, below every threshold and
the fever cutoff; an absent (undefined) field coerces to NaN and is
invalid. -/
theorem C9_nullAndEmpty (p : Patient) :
    toNumber JsVal.null = some 0 ∧ toNumber (JsVal.str "") = some 0 ∧
    toNumber JsVal.undef = none ∧
    (p.age = JsVal.null ∨ p.age = JsVal.str "" →
      (assessOne p).ageValid = true ∧ (assessOne p).ageRisk = 0 ∧
      dqFlag p = (!(bpOf p).isSome || !(toNumber p.temperature).isSome)) ∧
    (p.temperature = JsVal.null ∨ p.temperature = JsVal.str "" →
      (assessOne p).tempValid = true ∧ (assessOne p).tempRisk = 0 ∧ feverFlag p = false) ∧
    (p.age = JsVal.undef → (assessOne p).ageValid = false) ∧
    (p.temperature = JsVal.undef → (assessOne p).tempValid = false) := by
  have hzero : ∀ v : JsVal, v = JsVal.null ∨ v = JsVal.str "" → toNumber v = some 0 := by
    rintro v (rfl | rfl) <;> rfl
  refine ⟨rfl, rfl, rfl, fun h => ?_, fun h => ?_, fun h => ?_, fun h => ?_⟩
  · have h0 := hzero _ h
    refine ⟨by simp [assessOne, h0], ?_, by simp [dqFlag, h0]⟩
    simp only [assessOne, ageRiskOf, h0]
    norm_num
  · have h0 := hzero _ h
    refine ⟨by simp [assessOne, h0], ?_, ?_⟩
    · simp only [assessOne, tempRiskOf, h0]
      norm_num
    · simp only [feverFlag, h0]
      norm_num
  · simp [assessOne, h, toNumber]
  · simp [assessOne, h, toNumber]

/-- Witness for C9 at a record with null age and empty-string temperature. -/
theorem C9_nullAndEmpty_witness :
    (assessOne ⟨"W9", .null, .str "", .undef⟩).ageValid = true ∧
    (assessOne ⟨"W9", .null, .str "", .undef⟩).tempRisk = 0 :=
  ⟨((C9_nullAndEmpty ⟨"W9", .null, .str "", .undef⟩).2.2.2.1 (Or.inl rfl)).1,
   ((C9_nullAndEmpty ⟨"W9", .null, .str "", .undef⟩).2.2.2.2.1 (Or.inr rfl)).2.1⟩

/-- Age risk never exceeds 2, and is 0 on an invalid coercion. -/
theorem ageRiskOf_le (v : JsVal) :
    ageRiskOf v ≤ if (toNumber v).isSome then 2 else 0 := by
  unfold ageRiskOf
  rcases h : toNumber v with _ | a <;> simp [h] <;> split_ifs <;> omega

/-- Temperature risk never exceeds 2, and is 0 on an invalid coercion. -/
theorem tempRiskOf_le (v : JsVal) :
    tempRiskOf v ≤ if (toNumber v).isSome then 2 else 0 := by
  unfold tempRiskOf
  rcases h : toNumber v with _ | t <;> simp [h] <;> split_ifs <;> omega

/-- Blood-pressure risk never exceeds 3, and is 0 on a failed match. -/
theorem bpRiskOf_le (p : Patient) :
    bpRiskOf p ≤ if (bpOf p).isSome then 3 else 0 := by
  unfold bpRiskOf
  rcases h : bpOf p with _ | sd
  · simp [h]
  · obtain ⟨s, d⟩ := sd
    simp only [h, Option.isSome_some, if_pos]
    unfold bpBandRisk
    split_ifs <;> omega

/-- How many of the three components of a record are valid. -/
def validCount (p : Patient) : Nat :=
  (if (toNumber p.age).isSome then 1 else 0) +
  (if (toNumber p.temperature).isSome then 1 else 0) +
  (if (bpOf p).isSome then 1 else 0)

/-- C10: every identifier in the high-risk bucket comes from a record with at
least two valid components — a single valid component contributes at most 3,
below the threshold of 4. -/
theorem C10_highRisk_two_valid (ps : List Patient) (pid : String)
    (h : pid ∈ (assessPatients ps).highRiskPatients) :
    ∃ p ∈ ps, p.patient_id = pid ∧ 2 ≤ validCount p := by
  have h' : pid ∈ (ps.filter highRiskFlag).map Patient.patient_id := by
    rw [assessPatients_eq] at h
    exact h
  obtain ⟨p, hpmem, hpid⟩ := List.mem_map.mp h'
  obtain ⟨hmem, hflag⟩ := List.mem_filter.mp hpmem
  have h4 : 4 ≤ totalRisk p := of_decide_eq_true hflag
  refine ⟨p, hmem, hpid, ?_⟩
  have hb : totalRisk p ≤ (if (toNumber p.age).isSome then 2 else 0) +
      (if (toNumber p.temperature).isSome then 2 else 0) +
      (if (bpOf p).isSome then 3 else 0) :=
    Nat.add_le_add (Nat.add_le_add (ageRiskOf_le _) (tempRiskOf_le _)) (bpRiskOf_le _)
  unfold validCount
  by_cases c1 : (toNumber p.age).isSome = true <;>
    by_cases c2 : (toNumber p.temperature).isSome = true <;>
      by_cases c3 : (bpOf p).isSome = true <;>
        simp only [c1, c2, c3, if_true, if_false, Bool.not_eq_true] at hb ⊢ <;>
          simp_all <;> omega

/-- Witness for C10 on a fully valid high-risk record. -/
theorem C10_highRisk_two_valid_witness :
    ∃ p ∈ [(⟨"WX", .num 70, .num 102, .str "150/95"⟩ : Patient)],
      p.patient_id = "WX" ∧ 2 ≤ validCount p :=
  C10_highRisk_two_valid [⟨"WX", .num 70, .num 102, .str "150/95"⟩] "WX"
    (by
      rw [assessPatients_eq]
      have e1 : ageRiskOf (JsVal.num 70) = 2 := by
        simp only [ageRiskOf, toNumber]
        norm_num
      have e2 : tempRiskOf (JsVal.num 102) = 2 := by
        simp only [tempRiskOf, toNumber]
        norm_num
      have e3 : bpRiskOf ⟨"WX", .num 70, .num 102, .str "150/95"⟩ = 3 := by
        have hm : bpOf ⟨"WX", .num 70, .num 102, .str "150/95"⟩ = some (150, 95) := by decide
        simp [bpRiskOf, hm, bpBandRisk]
      have htot : totalRisk ⟨"WX", .num 70, .num 102, .str "150/95"⟩ = 7 := by
        unfold totalRisk
        rw [show (⟨"WX", .num 70, .num 102, .str "150/95"⟩ : Patient).age = JsVal.num 70 from rfl,
          show (⟨"WX", .num 70, .num 102, .str "150/95"⟩ : Patient).temperature = JsVal.num 102
            from rfl, e1, e2, e3]
      have hflag : highRiskFlag ⟨"WX", .num 70, .num 102, .str "150/95"⟩ = true := by
        simp [highRiskFlag, htot]
      simp [List.filter, hflag])

/-- A persistently empty page at or before page 3 starves the loop: no amount
of fuel reaches the exit. -/
theorem fetchAllLoop_stuck (fp : Nat → List α) :
    ∀ fuel page acc, page ≤ 3 → (∃ k, page ≤ k ∧ k ≤ 3 ∧ fp k = []) →
      fetchAllLoop fp fuel page acc = none := by
  intro fuel
  induction fuel with
  | zero => intro page acc _ _; rfl
  | succ n ih =>
    intro page acc hp hk
    obtain ⟨k, hpk, hk3, hke⟩ := hk
    unfold fetchAllLoop
    rw [if_pos hp]
    by_cases he : (fp page).isEmpty
    · rw [if_pos he]
      exact ih page acc hp ⟨k, hpk, hk3, hke⟩
    · rw [if_neg he]
      have hne : fp page ≠ [] := by
        simpa [List.isEmpty_iff] using he
      have hkp : page + 1 ≤ k := by
        rcases Nat.lt_or_ge page k with hlt | hge
        · omega
        · exfalso
          have : page = k := by omega
          exact hne (this ▸ hke)
      exact ih (page + 1) (acc ++ fp page) (by omega) ⟨k, hkp, hk3, hke⟩

/-- One loop iteration on a non-empty page appends it and advances. -/
theorem fetchAllLoop_step (fp : Nat → List α) (fuel page : Nat) (acc : List α)
    (hp : page ≤ 3) (h : fp page ≠ []) :
    fetchAllLoop fp (fuel + 1) page acc = fetchAllLoop fp fuel (page + 1) (acc ++ fp page) := by
  have he : (fp page).isEmpty = false := by
    simpa [List.isEmpty_iff] using h
  simp [fetchAllLoop, hp, he]

/-- Past page 3 the loop exits with the accumulator. -/
theorem fetchAllLoop_exit (fp : Nat → List α) (fuel : Nat) (acc : List α) :
    fetchAllLoop fp (fuel + 1) 4 acc = some acc := by
  unfold fetchAllLoop
  rw [if_neg (by omega)]

/-- C6: when pages 1, 2 and 3 all return records, `fetchAllPatients`
terminates (any fuel of at least 4 suffices) with the three pages
concatenated in page order; when some page up to 3 is persistently empty, the
loop never terminates (no fuel yields a result). -/
theorem C6_pagination (fp : Nat → List α) (fuel : Nat) :
    (fp 1 ≠ [] → fp 2 ≠ [] → fp 3 ≠ [] → 4 ≤ fuel →
      fetchAllPatients fp fuel = some (fp 1 ++ fp 2 ++ fp 3)) ∧
    ((∃ k, 1 ≤ k ∧ k ≤ 3 ∧ fp k = []) → fetchAllPatients fp fuel = none) := by
  constructor
  · intro h1 h2 h3 hfuel
    obtain ⟨f, rfl⟩ := Nat.exists_eq_add_of_le hfuel
    have e1 : fetchAllLoop fp (f + 4) 1 [] = fetchAllLoop fp (f + 3) 2 ([] ++ fp 1) :=
      fetchAllLoop_step fp (f + 3) 1 [] (by omega) h1
    have e2 : fetchAllLoop fp (f + 3) 2 ([] ++ fp 1) =
        fetchAllLoop fp (f + 2) 3 ([] ++ fp 1 ++ fp 2) :=
      fetchAllLoop_step fp (f + 2) 2 ([] ++ fp 1) (by omega) h2
    have e3 : fetchAllLoop fp (f + 2) 3 ([] ++ fp 1 ++ fp 2) =
        fetchAllLoop fp (f + 1) 4 ([] ++ fp 1 ++ fp 2 ++ fp 3) :=
      fetchAllLoop_step fp (f + 1) 3 ([] ++ fp 1 ++ fp 2) (by omega) h3
    have e4 : fetchAllLoop fp (f + 1) 4 ([] ++ fp 1 ++ fp 2 ++ fp 3) =
        some ([] ++ fp 1 ++ fp 2 ++ fp 3) :=
      fetchAllLoop_exit fp f ([] ++ fp 1 ++ fp 2 ++ fp 3)
    have : fetchAllPatients fp (4 + f) = some ([] ++ fp 1 ++ fp 2 ++ fp 3) := by
      unfold fetchAllPatients
      rw [show 4 + f = f + 4 from by omega, e1, e2, e3, e4]
    simpa using this
  · intro hk
    exact fetchAllLoop_stuck fp fuel 1 [] (by omega) hk

/-- Witness for C6: three singleton pages concatenate; an all-empty fetch
never finishes. -/
theorem C6_pagination_witness :
    fetchAllPatients (fun k => [k]) 4 = some [1, 2, 3] ∧
    fetchAllPatients (fun _ => ([] : List Nat)) 7 = none := by
  constructor
  · have h := (C6_pagination (fun k => [k]) 4).1 (by simp) (by simp) (by simp) (by omega)
    simpa using h
  · exact (C6_pagination (fun _ => ([] : List Nat)) 7).2 ⟨1, by simp⟩

/-- C7: on the scripted response sequence 429, then 500, then 200 with a
parseable body, `fetchWithRetry` issues exactly three requests — each with
the identical url and options — waits the 15-second cooldown after the 429
and the 1-second cooldown after the 500, and returns the parsed body of the
200 response. -/
theorem C7_retrySequence (url : String) (options : ReqOptions) (b1 b2 : Option Json)
    (j : Json) :
    fetchWithRetry url options [⟨429, b1⟩, ⟨500, b2⟩, ⟨200, some j⟩] [] =
      ([.request url options, .wait 15000, .request url options, .wait 1000,
        .request url options],
       .success j) := by
  simp [fetchWithRetry, resOk]

/-- C8: `fetchPatientsPage` never propagates an error: a run ending in an
HTTP error or a parse error yields the empty list, as does a success payload
whose `data` field is not an array; moreover a non-retryable non-2xx status
makes `fetchWithRetry` fail immediately with that status, consuming no
further scripted responses. -/
theorem C8_degradeToEmpty (script : List Resp) (page : Nat) (s : Nat) (body : Json)
    (r : Resp) (rest : List Resp) (url : String) (options : ReqOptions)
    (trace : List Event) :
    ((fetchWithRetry (pageUrl page) pageOpts script []).2 = .httpError s →
      fetchPatientsPage script page = []) ∧
    ((fetchWithRetry (pageUrl page) pageOpts script []).2 = .parseError →
      fetchPatientsPage script page = []) ∧
    ((fetchWithRetry (pageUrl page) pageOpts script []).2 = .success body →
      (∀ elems, body.getField "data" ≠ some (Json.arr elems)) →
      fetchPatientsPage script page = []) ∧
    (r.status ≠ 429 → r.status ≠ 500 → r.status ≠ 503 → resOk r.status = false →
      fetchWithRetry url options (r :: rest) trace =
        (trace ++ [.request url options], .httpError r.status)) := by
  refine ⟨fun h => ?_, fun h => ?_, fun h hdata => ?_, fun h1 h2 h3 h4 => ?_⟩
  · unfold fetchPatientsPage
    rcases hfw : fetchWithRetry (pageUrl page) pageOpts script [] with ⟨tr, outc⟩
    rw [hfw] at h
    simp only at h
    rw [h]
  · unfold fetchPatientsPage
    rcases hfw : fetchWithRetry (pageUrl page) pageOpts script [] with ⟨tr, outc⟩
    rw [hfw] at h
    simp only at h
    rw [h]
  · unfold fetchPatientsPage
    rcases hfw : fetchWithRetry (pageUrl page) pageOpts script [] with ⟨tr, outc⟩
    rw [hfw] at h
    simp only at h
    rw [h]
    show unwrapData body = []
    unfold unwrapData
    rcases hd : body.getField "data" with _ | v
    · rfl
    · cases v
      case arr elems => exact absurd hd (hdata elems)
      all_goals rfl
  · unfold fetchWithRetry
    rw [if_neg h1, if_neg (by simp [h2, h3]), if_neg (by simp [h4])]

/-- Witness for C8: a 404 page and a success payload without a `data` array
both yield the empty page. -/
theorem C8_degradeToEmpty_witness :
    fetchPatientsPage [⟨404, none⟩] 1 = [] ∧
    fetchPatientsPage [⟨200, some (Json.obj [])⟩] 2 = [] := by
  constructor
  · exact (C8_degradeToEmpty [⟨404, none⟩] 1 404 Json.null ⟨0, none⟩ [] ""
      ⟨"GET", [], none⟩ []).1 rfl
  · exact (C8_degradeToEmpty [⟨200, some (Json.obj [])⟩] 2 404 (Json.obj []) ⟨0, none⟩ [] ""
      ⟨"GET", [], none⟩ []).2.2.1 rfl (fun elems h => by simp [Json.getField] at h)
